import Mathlib

/-!
Verification of the Gifts-Buyer acquisition engine.

The definitions below are a shallow embedding of the repository's Python
source: `data/config.py` (range matcher), `app/core/callbacks.py`
(eligibility evaluator, gift distribution), `app/utils/detector.py`
(skip categorization, prioritizer, detection loop), `app/purchase.py`
(purchase orchestrator) and `app/errors.py` (error classifier).
Python integers are modelled as `Int` (Python floor division `//` is
`Int.fdiv`), dictionary fields accessed through `.get` with a default
are modelled as `Option` fields, and the side-effecting orchestrator is
modelled as a pure function producing the list of its collaborator
calls (its event trace).
-/

/-- A configured recipient is either a numeric chat id or a username
(`config._parse_single_recipient` returns `Union[int, str]`). -/
abbrev Recipient := Int ⊕ String

/-- One entry of `config.GIFT_RANGES` as produced by
`Config._parse_single_range`. -/
structure RangeConfig where
  min_price : Int
  max_price : Int
  supply_limit : Int
  quantity : Int
  recipients : List Recipient
deriving DecidableEq, Repr

/-- The configuration fields the acquisition engine reads
(`data/config.py`, `_setup_properties`). -/
structure Config where
  GIFT_RANGES : List RangeConfig
  PURCHASE_ONLY_UPGRADABLE_GIFTS : Bool
  PRIORITIZE_LOW_SUPPLY : Bool
deriving DecidableEq, Repr

/-- A gift dictionary as consumed by the engine.  Every field that the
Python code reads with `gift_data.get(key, default)` or probes with
`key in gift_data` is an `Option`, `none` meaning the key is absent. -/
structure GiftData where
  price : Option Int := none
  is_limited : Option Bool := none
  is_sold_out : Option Bool := none
  upgrade_price : Option Int := none
  total_amount : Option Int := none
deriving DecidableEq, Repr

/-- The condition of the comprehension filter in
`Config.get_matching_range`: a range matches when
`min_price <= price <= max_price` and `total_amount <= supply_limit`. -/
def rangeMatches (r : RangeConfig) (price total_amount : Int) : Bool :=
  decide (r.min_price ≤ price) && decide (price ≤ r.max_price) &&
    decide (total_amount ≤ r.supply_limit)

/-- `Config.get_matching_range` (`data/config.py` lines 219-237): build
the list of `(quantity, recipients)` of all matching ranges in
configured order; return `(True, *first)` if non-empty, else
`(False, 0, [])`. -/
def Config.get_matching_range (cfg : Config) (price total_amount : Int) :
    Bool × Int × List Recipient :=
  match cfg.GIFT_RANGES.filter (fun r => rangeMatches r price total_amount) with
  | [] => (false, 0, [])
  | r :: _ => (true, r.quantity, r.recipients)

/-- Result of `GiftProcessor.evaluate_gift`: the Python function
returns `(False, dict with exclusion_reason)`, `(True, dict with
quantity and recipients)`, or `(False, dict with range_error and the
price/amount diagnostics)`. -/
inductive EvalResult
  | excluded (reason : String)
  | eligible (quantity : Int) (recipients : List Recipient)
  | rangeError (gift_price total_amount : Int)
deriving DecidableEq, Repr

/-- `GiftProcessor._evaluate_range_match` (`app/core/callbacks.py`
lines 75-105): delegate to the range matcher and wrap the answer. -/
def evaluateRangeMatch (cfg : Config) (gift_price total_amount : Int) : EvalResult :=
  match cfg.get_matching_range gift_price total_amount with
  | (true, q, rs) => .eligible q rs
  | (false, _, _) => .rangeError gift_price total_amount

/-- `GiftProcessor.evaluate_gift` (`app/core/callbacks.py` lines
21-73).  The Python code builds an insertion-ordered dict of exclusion
rules (sold_out, non_limited_blocked, non_upgradable_blocked) and takes
the first whose condition holds; only if none fires does it evaluate
the price/supply ranges. -/
def evaluate_gift (cfg : Config) (g : GiftData) : EvalResult :=
  let gift_price := g.price.getD 0
  let is_limited := g.is_limited.getD false
  let is_sold_out := g.is_sold_out.getD false
  let is_upgradable := g.upgrade_price.isSome
  let total_amount := if is_limited then g.total_amount.getD 0 else 0
  if is_sold_out then .excluded "sold_out"
  else if !is_limited then .excluded "non_limited_blocked"
  else if cfg.PURCHASE_ONLY_UPGRADABLE_GIFTS && !is_upgradable then
    .excluded "non_upgradable_blocked"
  else evaluateRangeMatch cfg gift_price total_amount

/-- The three per-gift skip counters of
`GiftDetector.categorize_skipped_gifts`. -/
structure SkipCounts where
  sold_out_count : Nat
  non_limited_count : Nat
  non_upgradable_count : Nat
deriving DecidableEq, Repr

/-- `GiftDetector.categorize_skipped_gifts` (`app/utils/detector.py`
lines 85-104).  `gift_data.get("is_limited")` defaults to `None`, and
both `None` and `False` are falsy, so `non_limited_count` is 1 unless
the field is present and true. -/
def categorize_skipped_gifts (cfg : Config) (g : GiftData) : SkipCounts where
  sold_out_count := if g.is_sold_out.getD false then 1 else 0
  non_limited_count := if g.is_limited.getD false then 0 else 1
  non_upgradable_count :=
    if cfg.PURCHASE_ONLY_UPGRADABLE_GIFTS && g.upgrade_price.isNone then 1 else 0

/-- Index of the first occurrence of `a` in a list of ids
(`list.index` in `GiftDetector.prioritize_gifts`; the Python call only
happens for ids that are present). -/
def idxOf (a : Int) : List Int → Nat
  | [] => 0
  | b :: l => if a = b then 0 else idxOf a l + 1

/-- A gift together with the `position` field that
`prioritize_gifts` writes into its dictionary. -/
structure PrioGift where
  id : Int
  data : GiftData
  position : Nat
deriving DecidableEq, Repr

/-- The position assignment of `GiftDetector.prioritize_gifts` line
122: `gift_data["position"] = len(gift_ids) - gift_ids.index(gift_id)`. -/
def toPrio (gift_ids : List Int) (p : Int × GiftData) : PrioGift :=
  ⟨p.1, p.2, gift_ids.length - idxOf p.1 gift_ids⟩

/-- Comparison used by the first `sorted` call: ascending `position`. -/
def posLE (a b : PrioGift) : Bool := decide (a.position ≤ b.position)

/-- The supply component of the low-supply sort key (line 134):
`x[1].get("total_amount", float('inf')) if x[1].get("is_limited",
False) else float('inf')`, with `float('inf')` modelled as `⊤`. -/
def supplyKey (g : GiftData) : WithTop Int :=
  if g.is_limited.getD false then
    match g.total_amount with
    | some n => (n : WithTop Int)
    | none => ⊤
  else ⊤

/-- Comparison used by the second `sorted` call: ascending on the
lexicographic key `(supply, position)`. -/
def lowSupplyLE (a b : PrioGift) : Bool :=
  decide (supplyKey a.data < supplyKey b.data) ||
    (decide (supplyKey a.data = supplyKey b.data) && decide (a.position ≤ b.position))

/-- Insert into a sorted list, keeping the new element before the first
element it compares `le` to (the stable position, as in Python's
stable `sorted`). -/
def orderedInsertB {α : Type} (le : α → α → Bool) (a : α) : List α → List α
  | [] => [a]
  | b :: l => if le a b then a :: b :: l else b :: orderedInsertB le a l

/-- Stable insertion sort; on total preorder keys it computes the same
list as Python's stable `sorted`. -/
def insertionSortB {α : Type} (le : α → α → Bool) : List α → List α
  | [] => []
  | a :: l => orderedInsertB le a (insertionSortB le l)

/-- `GiftDetector.prioritize_gifts` (`app/utils/detector.py` lines
106-137).  The gifts dict is modelled as an association list in its
insertion order (which is the discovery order of the new gifts).
Positions are attached, the list is sorted by ascending `position`,
and — only when `PRIORITIZE_LOW_SUPPLY` is set — re-sorted by the
`(supply, position)` key. -/
def prioritize_gifts (cfg : Config) (gifts : List (Int × GiftData))
    (gift_ids : List Int) : List PrioGift :=
  let withPos := gifts.map (toPrio gift_ids)
  let position_sorted := insertionSortB posLE withPos
  if !cfg.PRIORITIZE_LOW_SUPPLY then position_sorted
  else insertionSortB lowSupplyLE position_sorted

/-- Does `needle` occur at the head of `hay`?  (Models Python's `in`
check on strings, on the character list.) -/
def startsHere : List Char → List Char → Bool
  | [], _ => true
  | _ :: _, [] => false
  | a :: as, b :: bs => decide (a = b) && startsHere as bs

/-- Substring test: Python's `needle in hay` for strings. -/
def hasSub (needle : List Char) : List Char → Bool
  | [] => startsHere needle []
  | b :: rest => startsHere needle (b :: rest) || hasSub needle rest

/-- The ordered error-handler table of
`ErrorHandler.get_error_handlers` (`app/errors.py` lines 14-38):
substring to match against `str(ex)`, paired with the notification key
looked up in `notification_data`. -/
def errorHandlerKeys : List (String × String) :=
  [("BALANCE_TOO_LOW", "balance_error"),
   ("STARGIFT_USAGE_LIMITED", "sold_out"),
   ("PEER_ID_INVALID", "peer_id_error")]

/-- Observable collaborator calls of the purchase pipeline.  `sendGift`
is one `app.send_gift` per-unit purchase call; the `notify*`
constructors are `send_notification` calls; `warnInsufficient` is the
console warning of `_handle_insufficient_balance`; `sleep` is the
`asyncio.sleep(0.5)` of `_distribute_gifts`. -/
inductive PEvent
  | sendGift (unit : Nat)
  | notifySuccess (unit total : Nat)
  | notifySoldOut
  | notifyPeerIdError
  | notifyRawError (msg : String)
  | warnInsufficient (gift_price current_balance requested : Int)
  | notifyBalanceError (gift_price current_balance : Int)
  | notifyPartial (purchased requested remaining_cost current_balance : Int)
  | sleep
deriving DecidableEq, Repr

/-- Concatenation of a list of traces. -/
def concatTraces : List (List PEvent) → List PEvent
  | [] => []
  | t :: ts => t ++ concatTraces ts

/-- The `notification_data` lookup of `handle_gift_error` (lines
56-60): the classified notification sent for a notification key; a key
absent from `notification_data` sends nothing. -/
def classifiedNotification (key : String) (gift_price current_balance : Int) :
    List PEvent :=
  if key = "balance_error" then [PEvent.notifyBalanceError gift_price current_balance]
  else if key = "sold_out" then [PEvent.notifySoldOut]
  else if key = "peer_id_error" then [PEvent.notifyPeerIdError]
  else []

/-- `ErrorHandler.handle_gift_error` (`app/errors.py` lines 40-68):
every handler whose substring matches `str(ex)` sends its classified
notification, and afterwards — unconditionally, with no early return —
the raw error text is sent as a generic notification. -/
def handleGiftError (msg : String) (gift_price current_balance : Int) : List PEvent :=
  concatTraces
      ((errorHandlerKeys.filter (fun h => hasSub h.1.toList msg.toList)).map
        (fun h => classifiedNotification h.2 gift_price current_balance))
    ++ [PEvent.notifyRawError msg]

/-- The unit loop of `GiftPurchaser._purchase_gifts` over the remaining
unit indices: on success, one `send_gift` call and one success
notification; on an `RPCError` carrying message `msg`, the attempted
call is followed by the error handler's events and the loop breaks.
`errPrice` and `errBal` are the price and balance re-fetched for error
reporting (lines 152-161). -/
def purchaseGiftsGo (results : Nat → Option String) (total : Nat)
    (errPrice errBal : Int) : List Nat → List PEvent
  | [] => []
  | u :: us =>
    match results u with
    | none =>
        PEvent.sendGift u :: PEvent.notifySuccess u total ::
          purchaseGiftsGo results total errPrice errBal us
    | some msg => PEvent.sendGift u :: handleGiftError msg errPrice errBal

/-- `GiftPurchaser._purchase_gifts` (`app/purchase.py` lines 106-162):
`for current_gift in range(1, quantity + 1)`. -/
def purchaseGifts (results : Nat → Option String) (total : Nat)
    (errPrice errBal : Int) : List PEvent :=
  purchaseGiftsGo results total errPrice errBal (List.range' 1 total)

/-- The affordable-quantity computation of `GiftPurchaser.buy_gift`
(`app/purchase.py` lines 46-51): `min(quantity, current_balance //
gift_price) if gift_price > 0 else quantity`. -/
def maxAffordable (gift_price current_balance quantity : Int) : Int :=
  if gift_price > 0 then min quantity (current_balance.fdiv gift_price)
  else quantity

/-- `GiftPurchaser.buy_gift` for one recipient (`app/purchase.py`
lines 21-83), as the trace of its collaborator calls.  `gift_price` is
the freshly fetched price (`_get_gift_price` returns 0 when the price
is unknown), `results u` is the outcome the platform gives the `u`-th
`send_gift` call (`none` = success).  When nothing is affordable the
insufficient-balance path of `_handle_insufficient_balance` (lines
164-196) runs instead: a console warning carrying price, balance and
requested quantity, then a balance-error notification whose price field
is `gift_price * requested_quantity`.  After a partial buy,
`_notify_partial_purchase` (lines 198-235) reports the shortfall
`(requested - purchased) * gift_price`. -/
def buyGift (results : Nat → Option String)
    (gift_price current_balance quantity errPrice errBal : Int) : List PEvent :=
  let ma := maxAffordable gift_price current_balance quantity
  if ma = 0 then
    [PEvent.warnInsufficient gift_price current_balance quantity,
     PEvent.notifyBalanceError (gift_price * quantity) current_balance]
  else
    purchaseGifts results ma.toNat errPrice errBal ++
      (if ma < quantity then
        [PEvent.notifyPartial ma quantity ((quantity - ma) * gift_price) current_balance]
      else [])

/-- `_distribute_gifts` (`app/core/callbacks.py` lines 139-171): for
each recipient in order, the recipient's `buy_gift` trace followed by
the unconditional `asyncio.sleep(0.5)` at the bottom of the loop body. -/
def distributeGifts (traceOf : Int → List PEvent) : List Int → List PEvent
  | [] => []
  | r :: rs => traceOf r ++ PEvent.sleep :: distributeGifts traceOf rs

/-- Number of per-unit purchase calls in a trace. -/
def countSends : List PEvent → Nat
  | [] => 0
  | PEvent.sendGift _ :: es => countSends es + 1
  | _ :: es => countSends es

/-- Number of `send_notification` collaborator calls in a trace. -/
def notifCount : List PEvent → Nat
  | [] => 0
  | PEvent.notifySuccess _ _ :: es => notifCount es + 1
  | PEvent.notifySoldOut :: es => notifCount es + 1
  | PEvent.notifyPeerIdError :: es => notifCount es + 1
  | PEvent.notifyRawError _ :: es => notifCount es + 1
  | PEvent.notifyBalanceError _ _ :: es => notifCount es + 1
  | PEvent.notifyPartial _ _ _ _ :: es => notifCount es + 1
  | _ :: es => notifCount es

/-- Number of sleep steps in a trace. -/
def countSleeps : List PEvent → Nat
  | [] => 0
  | PEvent.sleep :: es => countSleeps es + 1
  | _ :: es => countSleeps es

/-- Scanner for the spacing guarantee: `pending` records that a
purchase call has been seen with no sleep after it; a further purchase
call while `pending` violates the guarantee. -/
def spacedGo : Bool → List PEvent → Bool
  | _, [] => true
  | pending, e :: es =>
    match e with
    | PEvent.sendGift _ => !pending && spacedGo true es
    | PEvent.sleep => spacedGo false es
    | _ => spacedGo pending es

/-- A trace is well spaced when between any two successive per-unit
purchase calls at least one sleep step is interposed. -/
def wellSpaced (tr : List PEvent) : Bool := spacedGo false tr


/-- A fetched catalog: gift ids mapped to their data, in the
platform-provided order (`fetch_current_gifts` builds the dict and the
ordered id list from the same response). -/
abbrev Catalog := List (Int × GiftData)

/-- The diff of `run_detection_loop` lines 178-181: new gifts are the
entries of the current fetch whose id is absent from the loaded
history (id equality only). -/
def newGifts (old current : Catalog) : Catalog :=
  current.filter (fun p => !(old.map Prod.fst).contains p.1)

/-- Observable outcome of finitely many ticks of the detection loop:
the ticks on which a catalog fetch was attempted, the gift ids handed
to the callback in processing order, and the error that escaped the
loop, if any. -/
structure LoopResult where
  attempts : List Nat
  processed : List Int
  failure : Option String
deriving DecidableEq, Repr

/-- `GiftMonitor.run_detection_loop` (`app/utils/detector.py` lines
152-189) run for `fuel` ticks against a catalog oracle.  The loop body
has no exception handling: a failing fetch propagates immediately, so
the failing tick is the last attempt and no later tick runs.  On
success the new gifts are prioritized and each is handed to the
callback, the current catalog becomes the saved history, and the loop
sleeps and continues. -/
def runDetectionLoop (oracle : Nat → Except String Catalog) (cfg : Config) :
    Nat → Catalog → Nat → LoopResult
  | 0, _, _ => ⟨[], [], none⟩
  | fuel + 1, hist, tick =>
    match oracle tick with
    | .error e => ⟨[tick], [], some e⟩
    | .ok current =>
      let news := newGifts hist current
      let prioritized := prioritize_gifts cfg news (current.map Prod.fst)
      let rest := runDetectionLoop oracle cfg fuel current (tick + 1)
      ⟨tick :: rest.attempts, prioritized.map (·.id) ++ rest.processed, rest.failure⟩

/-! ## Concrete fixtures -/

/-- A two-range configuration (overlapping bands), upgradable-only off,
low-supply off. -/
def cfgMain : Config where
  GIFT_RANGES :=
    [⟨10, 50, 100, 2, [Sum.inl 111]⟩,
     ⟨20, 60, 80, 1, [Sum.inr "bob"]⟩]
  PURCHASE_ONLY_UPGRADABLE_GIFTS := false
  PRIORITIZE_LOW_SUPPLY := false

/-- A sold-out limited gift. -/
def gSold : GiftData where
  price := some 999
  is_limited := some true
  is_sold_out := some true
  total_amount := some 5

/-- A non-limited gift (sold-out flag absent). -/
def gPlain : GiftData where
  is_limited := some false

/-! ## Helper lemmas -/

/-- Taking the first element of a filtered list is finding the first
element satisfying the predicate. -/
theorem head_filter_eq_find {α : Type} (p : α → Bool) (l : List α) :
    (l.filter p).head? = l.find? p := by
  induction l with
  | nil => rfl
  | cons a t ih =>
    by_cases h : p a
    · simp [List.filter, List.find?, h]
    · simp only [List.filter, List.find?, h]
      simp [ih]

/-! ## C1 -/

/-- C1: for every configuration and gift dictionary, a gift whose
`is_sold_out` field is true is excluded with reason `sold_out`
(whatever its price, supply, limited flag, or the upgradable-only
configuration), and a gift that is not sold out and not limited is
excluded with reason `non_limited_blocked`; neither outcome consults
the configured ranges, so both exclusions fire before any range
evaluation. -/
theorem evaluate_gift_exclusion_order :
    ∀ (cfg : Config) (g : GiftData),
      (g.is_sold_out = some true → evaluate_gift cfg g = .excluded "sold_out") ∧
      (g.is_sold_out.getD false = false → g.is_limited.getD false = false →
        evaluate_gift cfg g = .excluded "non_limited_blocked") := by
  intro cfg g
  constructor
  · intro h
    simp [evaluate_gift, h]
  · intro h1 h2
    simp [evaluate_gift, h1, h2]

/-- Witness for C1 at concrete inputs. -/
theorem evaluate_gift_exclusion_order_witness :
    evaluate_gift cfgMain gSold = .excluded "sold_out" ∧
      evaluate_gift cfgMain gPlain = .excluded "non_limited_blocked" :=
  ⟨(evaluate_gift_exclusion_order cfgMain gSold).1 rfl,
   (evaluate_gift_exclusion_order cfgMain gPlain).2 rfl rfl⟩

/-! ## C2 -/

/-- C2: for every configuration, price and total amount,
`get_matching_range` returns `(true, quantity, recipients)` of the
first configured range satisfying
`min_price ≤ price ≤ max_price ∧ total_amount ≤ supply_limit`, and
`(false, 0, [])` when no configured range satisfies it; first-hit
scanning makes the choice deterministic when several ranges overlap. -/
theorem get_matching_range_first_hit :
    ∀ (cfg : Config) (price total_amount : Int),
      cfg.get_matching_range price total_amount =
        match cfg.GIFT_RANGES.find? (fun r => rangeMatches r price total_amount) with
        | some r => (true, r.quantity, r.recipients)
        | none => (false, 0, []) := by
  intro cfg price total_amount
  unfold Config.get_matching_range
  rw [← head_filter_eq_find]
  cases h : cfg.GIFT_RANGES.filter (fun r => rangeMatches r price total_amount) with
  | nil => simp [h]
  | cons r t => simp [h]

/-! ## C3 -/

/-- A limited gift with supply 40. -/
def gA : GiftData where
  price := some 30
  is_limited := some true
  is_sold_out := some false
  total_amount := some 40

/-- A limited gift with supply 10. -/
def gB : GiftData where
  price := some 25
  is_limited := some true
  is_sold_out := some false
  total_amount := some 10

/-- A limited gift with supply 100. -/
def gC : GiftData where
  price := some 45
  is_limited := some true
  is_sold_out := some false
  total_amount := some 100

/-- A batch of three newly discovered gifts, in discovery order. -/
def batch3 : List (Int × GiftData) := [(1, gA), (2, gB), (3, gC)]

/-- The discovery-order id list of that batch. -/
def ids3 : List Int := [1, 2, 3]

/-- Inserting an element that compares `le = false` to every element of
the list puts it at the end. -/
theorem orderedInsertB_of_forall_not {α : Type} (le : α → α → Bool) (a : α)
    (l : List α) (h : ∀ b ∈ l, le a b = false) :
    orderedInsertB le a l = l ++ [a] := by
  induction l with
  | nil => rfl
  | cons b t ih =>
    have hb : le a b = false := h b (by simp)
    simp only [orderedInsertB, hb, if_neg Bool.false_ne_true, List.cons_append]
    rw [ih fun c hc => h c (by simp [hc])]

/-- Sorting a list in which every element compares `le = false` to all
later elements reverses it. -/
theorem insertionSortB_of_pairwise_not {α : Type} (le : α → α → Bool)
    (l : List α) (h : l.Pairwise (fun x y => le x y = false)) :
    insertionSortB le l = l.reverse := by
  induction l with
  | nil => rfl
  | cons a t ih =>
    rcases List.pairwise_cons.1 h with ⟨ha, ht⟩
    simp only [insertionSortB, ih ht, List.reverse_cons]
    exact orderedInsertB_of_forall_not le a t.reverse
      fun b hb => ha b (List.mem_reverse.1 hb)

/-- Membership bounds the first-occurrence index. -/
theorem idxOf_lt_length {a : Int} : ∀ {l : List Int}, a ∈ l → idxOf a l < l.length := by
  intro l
  induction l with
  | nil => intro h; cases h
  | cons b t ih =>
    intro h
    by_cases hab : a = b
    · simp [idxOf, hab]
    · rcases List.mem_cons.1 h with h' | h'
      · exact absurd h' hab
      · simp only [idxOf, if_neg hab, List.length_cons]
        exact Nat.succ_lt_succ (ih h')

/-- Counterexample to C3: with low-supply prioritization disabled, a
batch of three gifts listed in the discovery order `[1, 2, 3]` is
output as `[3, 2, 1]`, not in its original discovery order. -/
theorem prioritize_gifts_not_discovery_order :
    (prioritize_gifts cfgMain batch3 ids3).map (·.id) ≠ batch3.map Prod.fst := by
  decide

/-- C3 amended: with low-supply prioritization disabled,
`prioritize_gifts` (position `= len(discoveryOrder) - indexOf id`,
sorted by ascending position) outputs a batch of newly discovered
items in the reverse of their discovery order: items listed later in
the discovery-order id list come first. -/
theorem prioritize_gifts_reverses_discovery :
    ∀ (cfg : Config) (gifts : List (Int × GiftData)) (gift_ids : List Int),
      cfg.PRIORITIZE_LOW_SUPPLY = false →
      (∀ p ∈ gifts, p.1 ∈ gift_ids) →
      gifts.Pairwise
        (fun p q => idxOf p.1 gift_ids < idxOf q.1 gift_ids) →
      (prioritize_gifts cfg gifts gift_ids).map (·.id) =
        (gifts.map Prod.fst).reverse := by
  intro cfg gifts gift_ids hcfg hmem hpair
  have hpair2 : gifts.Pairwise
      (fun p q => idxOf p.1 gift_ids < idxOf q.1 gift_ids ∧
        idxOf q.1 gift_ids < gift_ids.length) :=
    hpair.imp_of_mem (fun hp hq h => ⟨h, idxOf_lt_length (hmem _ hq)⟩)
  have hpos : (gifts.map (toPrio gift_ids)).Pairwise
      (fun x y => posLE x y = false) := by
    refine hpair2.map (toPrio gift_ids) ?_
    intro p q h
    simp only [posLE, toPrio, decide_eq_false_iff_not, not_le]
    omega
  unfold prioritize_gifts
  simp only [hcfg, Bool.not_false, if_pos]
  rw [insertionSortB_of_pairwise_not _ _ hpos, List.map_reverse,
    List.map_map]
  rfl

/-- Witness for the amended C3 at the concrete three-gift batch. -/
theorem prioritize_gifts_reverses_discovery_witness :
    (prioritize_gifts cfgMain batch3 ids3).map (·.id) =
      (batch3.map Prod.fst).reverse :=
  prioritize_gifts_reverses_discovery cfgMain batch3 ids3 rfl
    (by decide) (by decide)

/-! ## C4 -/

/-- A platform on which every `send_gift` call succeeds. -/
def allOk : Nat → Option String := fun _ => none

/-- C4: the affordable quantity is `min(requestedQuantity, balance //
price)` when the freshly fetched price is positive and
`requestedQuantity` when the price is 0 (an unknown price is fetched as
0); concretely, with balance 25, price 10 and requested quantity 5,
`buy_gift` issues exactly 2 per-unit purchase calls and then emits the
partial-purchase report with shortfall `(5 - 2) * 10 = 30`. -/
theorem buy_gift_affordable_quantity :
    (∀ gift_price current_balance quantity : Int, 0 < gift_price →
      maxAffordable gift_price current_balance quantity =
        min quantity (current_balance.fdiv gift_price)) ∧
    (∀ current_balance quantity : Int,
      maxAffordable 0 current_balance quantity = quantity) ∧
    countSends (buyGift allOk 10 25 5 10 25) = 2 ∧
    buyGift allOk 10 25 5 10 25 =
      [PEvent.sendGift 1, PEvent.notifySuccess 1 2,
       PEvent.sendGift 2, PEvent.notifySuccess 2 2,
       PEvent.notifyPartial 2 5 30 25] := by
  refine ⟨?_, ?_, ?_, ?_⟩
  · intro gift_price current_balance quantity h
    simp [maxAffordable, h]
  · intro current_balance quantity
    simp [maxAffordable]
  · decide
  · decide

/-- Witness for C4's price-positive hypothesis at the concrete input. -/
theorem buy_gift_affordable_quantity_witness :
    maxAffordable 10 25 5 = min 5 (Int.fdiv 25 10) :=
  buy_gift_affordable_quantity.1 10 25 5 (by decide)

/-! ## C5 -/

/-- C5: whenever the price is positive and `balance // price = 0` (and
the requested quantity is non-negative, as every request is), the
affordable quantity is 0, `buy_gift` issues no purchase call at all and
instead emits the insufficient-balance report carrying the price, the
balance and the requested quantity. -/
theorem buy_gift_insufficient_balance :
    ∀ (results : Nat → Option String)
      (gift_price current_balance quantity errPrice errBal : Int),
      0 < gift_price → current_balance.fdiv gift_price = 0 → 0 ≤ quantity →
      buyGift results gift_price current_balance quantity errPrice errBal =
        [PEvent.warnInsufficient gift_price current_balance quantity,
         PEvent.notifyBalanceError (gift_price * quantity) current_balance] ∧
      countSends
        (buyGift results gift_price current_balance quantity errPrice errBal) = 0 := by
  intro results gift_price current_balance quantity errPrice errBal hp hdiv hq
  have hma : maxAffordable gift_price current_balance quantity = 0 := by
    simp only [maxAffordable, if_pos hp, hdiv]
    omega
  constructor
  · simp [buyGift, hma]
  · simp [buyGift, hma, countSends]

/-- Witness for C5 at balance 5, price 10, requested quantity 3. -/
theorem buy_gift_insufficient_balance_witness :
    buyGift allOk 10 5 3 10 5 =
      [PEvent.warnInsufficient 10 5 3, PEvent.notifyBalanceError 30 5] ∧
      countSends (buyGift allOk 10 5 3 10 5) = 0 :=
  buy_gift_insufficient_balance allOk 10 5 3 10 5 (by decide) (by decide) (by decide)

/-! ## C6 -/

/-- Sleep steps add up over concatenation. -/
theorem countSleeps_append (a b : List PEvent) :
    countSleeps (a ++ b) = countSleeps a + countSleeps b := by
  induction a with
  | nil => simp [countSleeps]
  | cons e t ih =>
    cases e <;>
      simp [countSleeps, ih, Nat.add_comm, Nat.add_assoc, Nat.add_left_comm]

/-- Classified notifications contain no sleep step. -/
theorem countSleeps_classified (k : String) (p b : Int) :
    countSleeps (classifiedNotification k p b) = 0 := by
  unfold classifiedNotification
  split
  · rfl
  · split
    · rfl
    · split
      · rfl
      · rfl

/-- A concatenation of sleep-free traces is sleep-free. -/
theorem countSleeps_concatTraces (ts : List (List PEvent))
    (h : ∀ t ∈ ts, countSleeps t = 0) : countSleeps (concatTraces ts) = 0 := by
  induction ts with
  | nil => rfl
  | cons t rest ih =>
    simp only [concatTraces, countSleeps_append]
    rw [h t (by simp), ih fun u hu => h u (by simp [hu])]

/-- The error handler emits no sleep step. -/
theorem countSleeps_handleGiftError (msg : String) (p b : Int) :
    countSleeps (handleGiftError msg p b) = 0 := by
  unfold handleGiftError
  rw [countSleeps_append]
  rw [countSleeps_concatTraces]
  · rfl
  · intro t ht
    rcases List.mem_map.1 ht with ⟨h', _, rfl⟩
    exact countSleeps_classified h'.2 p b

/-- The per-unit purchase loop emits no sleep step. -/
theorem countSleeps_purchaseGiftsGo (results : Nat → Option String)
    (total : Nat) (ep eb : Int) :
    ∀ us : List Nat, countSleeps (purchaseGiftsGo results total ep eb us) = 0 := by
  intro us
  induction us with
  | nil => rfl
  | cons u rest ih =>
    cases h : results u with
    | none => simp [purchaseGiftsGo, h, countSleeps, ih]
    | some msg =>
      simp [purchaseGiftsGo, h, countSleeps, countSleeps_handleGiftError]

/-- The whole per-unit purchase phase emits no sleep step. -/
theorem countSleeps_purchaseGifts (results : Nat → Option String)
    (total : Nat) (ep eb : Int) :
    countSleeps (purchaseGifts results total ep eb) = 0 :=
  countSleeps_purchaseGiftsGo results total ep eb (List.range' 1 total)

/-- Counterexample to C6: a recipient whose two per-unit purchase calls
both succeed produces two consecutive purchase calls with no sleep step
interposed, so the trace of `_distribute_gifts` is not well spaced. -/
theorem distribute_gifts_not_well_spaced :
    wellSpaced
      (distributeGifts (fun _ => buyGift allOk 10 100 2 10 100) [777]) = false := by
  decide

/-- C6 amended: `buy_gift` interposes no delay between the successive
per-unit purchase calls of one recipient; the fixed 0.5-second sleep is
instead executed once after each recipient's entire purchase sequence,
so only purchase calls of distinct recipients are separated by a sleep
step. -/
theorem sleep_only_between_recipients :
    (∀ (results : Nat → Option String)
      (gift_price current_balance quantity errPrice errBal : Int),
      countSleeps (buyGift results gift_price current_balance quantity
        errPrice errBal) = 0) ∧
    (∀ (traceOf : Int → List PEvent) (recipients : List Int),
      distributeGifts traceOf recipients =
        concatTraces (recipients.map (fun r => traceOf r ++ [PEvent.sleep]))) := by
  constructor
  · intro results gift_price current_balance quantity errPrice errBal
    by_cases hma : maxAffordable gift_price current_balance quantity = 0
    · simp [buyGift, hma, countSleeps]
    · simp only [buyGift, if_neg hma]
      rw [countSleeps_append, countSleeps_purchaseGifts]
      split
      · rfl
      · rfl
  · intro traceOf recipients
    induction recipients with
    | nil => rfl
    | cons r rest ih =>
      simp [distributeGifts, concatTraces, ih]

/-! ## C7 -/

/-- A catalog oracle that fails on tick 0 and would succeed afterwards. -/
def oracleFail0 : Nat → Except String Catalog :=
  fun t => if t = 0 then .error "boom" else .ok []

/-- Counterexample to C7: with two ticks of fuel and a catalog fetch
that fails only on tick 0, the loop performs no second attempt — the
failure escapes the loop instead of being absorbed by the cycle, so the
loop does not proceed to the sleep and re-attempt on the next tick. -/
theorem detection_loop_dies_on_fetch_failure :
    runDetectionLoop oracleFail0 cfgMain 2 [] 0 = ⟨[0], [], some "boom"⟩ ∧
      (runDetectionLoop oracleFail0 cfgMain 2 [] 0).attempts ≠ [0, 1] := by
  decide

/-- C7 amended: a failing catalog fetch terminates the detection loop
immediately: the failing tick is the last attempt, nothing is
processed from that tick on, and the error propagates out of the loop
(to the application's top-level handler, which logs and exits). -/
theorem detection_loop_propagates_fetch_failure :
    ∀ (oracle : Nat → Except String Catalog) (cfg : Config)
      (fuel : Nat) (hist : Catalog) (tick : Nat) (e : String),
      oracle tick = .error e →
      runDetectionLoop oracle cfg (fuel + 1) hist tick = ⟨[tick], [], some e⟩ := by
  intro oracle cfg fuel hist tick e h
  simp [runDetectionLoop, h]

/-- Witness for the amended C7: five ticks of fuel, failure on the
first tick. -/
theorem detection_loop_propagates_fetch_failure_witness :
    runDetectionLoop oracleFail0 cfgMain 5 [] 0 = ⟨[0], [], some "boom"⟩ :=
  detection_loop_propagates_fetch_failure oracleFail0 cfgMain 4 [] 0 "boom" rfl

/-! ## C8 -/

/-- Notifications add up over concatenation. -/
theorem notifCount_append (a b : List PEvent) :
    notifCount (a ++ b) = notifCount a + notifCount b := by
  induction a with
  | nil => simp [notifCount]
  | cons e t ih =>
    cases e <;>
      simp [notifCount, ih, Nat.add_comm, Nat.add_assoc, Nat.add_left_comm]

/-- Each entry of the handler table sends exactly one classified
notification. -/
theorem notifCount_classified_of_mem (h : String × String)
    (hm : h ∈ errorHandlerKeys) (p b : Int) :
    notifCount (classifiedNotification h.2 p b) = 1 := by
  fin_cases hm <;> rfl

/-- A batch of single-notification traces contributes its length. -/
theorem notifCount_concat_ones (p b : Int) (ls : List (String × String))
    (h : ∀ x ∈ ls, notifCount (classifiedNotification x.2 p b) = 1) :
    notifCount
      (concatTraces (ls.map (fun x => classifiedNotification x.2 p b))) =
      ls.length := by
  induction ls with
  | nil => rfl
  | cons x rest ih =>
    simp only [List.map_cons, concatTraces, notifCount_append, List.length_cons]
    rw [h x (by simp), ih fun y hy => h y (by simp [hy])]
    omega

/-- Counterexample to C8: a purchase failure whose message matches the
classified category `BALANCE_TOO_LOW` produces two notifications (the
classified balance notification, then the unconditional generic
notification with the raw error text) — more than one. -/
theorem classified_failure_two_notifications :
    1 < notifCount (handleGiftError "BALANCE_TOO_LOW" 10 5) := by
  decide

/-- C8 amended: each successful unit purchase emits exactly one
notification (one per unit in an all-success sequence, matching the
number of purchase calls), while a failed purchase attempt emits one
generic raw-error notification plus one classified notification per
matched category — hence exactly two notifications when exactly one
category matches, and one when none does; notifications are never
batched or suppressed. -/
theorem notification_counts :
    (∀ (msg : String) (gift_price current_balance : Int),
      notifCount (handleGiftError msg gift_price current_balance) =
        (errorHandlerKeys.filter
          (fun h => hasSub h.1.toList msg.toList)).length + 1) ∧
    (∀ (total : Nat) (ep eb : Int),
      notifCount (purchaseGifts allOk total ep eb) = total ∧
      countSends (purchaseGifts allOk total ep eb) = total) := by
  constructor
  · intro msg gift_price current_balance
    unfold handleGiftError
    rw [notifCount_append, notifCount_concat_ones]
    · rfl
    · intro x hx
      exact notifCount_classified_of_mem x (List.mem_of_mem_filter hx)
        gift_price current_balance
  · intro total ep eb
    have key : ∀ us : List Nat,
        notifCount (purchaseGiftsGo allOk total ep eb us) = us.length ∧
        countSends (purchaseGiftsGo allOk total ep eb us) = us.length := by
      intro us
      induction us with
      | nil => exact ⟨rfl, rfl⟩
      | cons u rest ih =>
        simp [purchaseGiftsGo, allOk, notifCount, countSends, ih.1, ih.2]
    have := key (List.range' 1 total)
    simpa [purchaseGifts] using this

/-! ## C9 -/

/-- A sold-out gift whose limited flag is absent. -/
def gSoldNoLim : GiftData where
  is_sold_out := some true

/-- C9: for a gift that is sold out and not limited (flag false or
absent), the per-batch skip categorization increments both
`sold_out_count` and `non_limited_count` simultaneously, even though
`evaluate_gift` reports only the single exclusion reason `sold_out`
for the same gift. -/
theorem skip_counters_not_exclusive :
    ∀ (cfg : Config) (g : GiftData),
      g.is_sold_out = some true →
      (g.is_limited = none ∨ g.is_limited = some false) →
      (categorize_skipped_gifts cfg g).sold_out_count = 1 ∧
      (categorize_skipped_gifts cfg g).non_limited_count = 1 ∧
      evaluate_gift cfg g = .excluded "sold_out" := by
  intro cfg g h1 h2
  rcases h2 with h2 | h2 <;>
    simp [categorize_skipped_gifts, evaluate_gift, h1, h2]

/-- Witness for C9 at a concrete sold-out, non-limited gift. -/
theorem skip_counters_not_exclusive_witness :
    (categorize_skipped_gifts cfgMain gSoldNoLim).sold_out_count = 1 ∧
      (categorize_skipped_gifts cfgMain gSoldNoLim).non_limited_count = 1 ∧
      evaluate_gift cfgMain gSoldNoLim = .excluded "sold_out" :=
  skip_counters_not_exclusive cfgMain gSoldNoLim rfl (Or.inl rfl)

/-! ## C10 -/

/-- The configuration of `cfgMain` with the upgradable-only flag set. -/
def cfgUpg : Config where
  GIFT_RANGES := cfgMain.GIFT_RANGES
  PURCHASE_ONLY_UPGRADABLE_GIFTS := true
  PRIORITIZE_LOW_SUPPLY := false

/-- A limited, not sold-out gift whose dictionary has neither
`total_amount` nor `upgrade_price`. -/
def gNoAmount : GiftData where
  price := some 30
  is_limited := some true
  is_sold_out := some false

/-- Counterexample to C10: under an upgradable-only configuration, a
limited, not sold-out gift lacking `total_amount` (and not upgradable)
is excluded as `non_upgradable_blocked` and is never delegated to the
range matcher. -/
theorem missing_supply_not_always_delegated :
    evaluate_gift cfgUpg gNoAmount = .excluded "non_upgradable_blocked" ∧
      evaluate_gift cfgUpg gNoAmount ≠
        evaluateRangeMatch cfgUpg (gNoAmount.price.getD 0) 0 := by
  decide

/-- C10 amended: for every limited, not sold-out gift lacking
`total_amount` that is not excluded by the upgradable-only rule,
`evaluate_gift` delegates to the range matcher with total amount 0, so
the gift satisfies the supply conjunct of every configured range with
non-negative `supply_limit`; the prioritizer instead treats the same
missing field as `+∞` (lowest priority). -/
theorem missing_supply_permissive :
    ∀ (cfg : Config) (g : GiftData),
      g.is_limited = some true →
      g.is_sold_out.getD false = false →
      g.total_amount = none →
      (cfg.PURCHASE_ONLY_UPGRADABLE_GIFTS = false ∨ g.upgrade_price.isSome) →
      evaluate_gift cfg g = evaluateRangeMatch cfg (g.price.getD 0) 0 ∧
      (∀ r : RangeConfig, 0 ≤ r.supply_limit →
        rangeMatches r (g.price.getD 0) 0 =
          (decide (r.min_price ≤ g.price.getD 0) &&
            decide (g.price.getD 0 ≤ r.max_price))) ∧
      supplyKey g = ⊤ := by
  intro cfg g h1 h2 h3 h4
  refine ⟨?_, ?_, ?_⟩
  · rcases h4 with h4 | h4 <;> simp [evaluate_gift, h1, h2, h3, h4]
  · intro r hr
    simp [rangeMatches, hr]
  · simp [supplyKey, h1, h3]

/-- Witness for the amended C10 at a concrete gift and configuration. -/
theorem missing_supply_permissive_witness :
    evaluate_gift cfgMain gNoAmount =
        evaluateRangeMatch cfgMain (gNoAmount.price.getD 0) 0 ∧
      rangeMatches ⟨10, 50, 100, 2, [Sum.inl 111]⟩ (gNoAmount.price.getD 0) 0 =
        (decide ((10 : Int) ≤ gNoAmount.price.getD 0) &&
          decide (gNoAmount.price.getD 0 ≤ (50 : Int))) ∧
      supplyKey gNoAmount = ⊤ :=
  ⟨(missing_supply_permissive cfgMain gNoAmount rfl rfl rfl (Or.inl rfl)).1,
   (missing_supply_permissive cfgMain gNoAmount rfl rfl rfl (Or.inl rfl)).2.1
     ⟨10, 50, 100, 2, [Sum.inl 111]⟩ (by decide),
   (missing_supply_permissive cfgMain gNoAmount rfl rfl rfl (Or.inl rfl)).2.2⟩
